import Mathlib

/-!
Verification of the `wayne` repository's `GaussianModel1D` (src/wayne/models.py)
against its natural-language specification.

The Python class stores three mutable numeric attributes (`amplitude`, `mean`,
`stddev`, inherited from the astropy `Gaussian1D` base) and exposes derived
read/write properties (`flux`, `fwhm`) plus an `integrate` method.  We embed
the numeric state over the real numbers; property getters become functions
from the state, property setters become functions returning an updated state,
`__init__` becomes a function returning `Except InitError GaussianModel1D`
(the two `raise ValueError` sites become the two `InitError` constructors,
each carrying the values interpolated into the Python error message), and
`integrate` — a method that reads but never writes `self` — is embedded in
explicit state-passing style, returning the (unchanged) state together with
the list of binned fluxes.  The standard-normal CDF (`scipy.stats.norm.cdf`)
is an external collaborator of the module, so `integrate` is parameterized by
an arbitrary function `cdf : ℝ → ℝ → ℝ → ℝ` taking the point, the mean and
the standard deviation.
-/

/-- The mutable numeric state of a `GaussianModel1D` instance: the three core
attributes stored by the astropy `Gaussian1D` base (`amplitude`, `mean`,
`stddev`). -/
structure GaussianModel1D where
  amplitude : ℝ
  mean : ℝ
  stddev : ℝ

/-- Embeds the module-level constant
`_gauss_StDev_to_FWHM = 2 * np.sqrt(2 * np.log(2))` of models.py. -/
noncomputable def gauss_StDev_to_FWHM : ℝ := 2 * Real.sqrt (2 * Real.log 2)

/-- Embeds the `flux` property getter:
`flux = self.amplitude * (self.stddev * np.sqrt(2 * np.pi))`. -/
noncomputable def GaussianModel1D.flux (m : GaussianModel1D) : ℝ :=
  m.amplitude * (m.stddev * Real.sqrt (2 * Real.pi))

/-- Embeds the `flux` property setter:
`self.amplitude = flux / (self.stddev * np.sqrt(2 * np.pi))`.
Over the reals Lean's division is total (`x / 0 = 0`); the Python division is
undefined at `stddev = 0`, and theorem `GaussianModel1D.flux_write_spec`
below records that in that case no amplitude can realize the requested
flux. -/
noncomputable def GaussianModel1D.flux_set (m : GaussianModel1D) (flux : ℝ) :
    GaussianModel1D :=
  { m with amplitude := flux / (m.stddev * Real.sqrt (2 * Real.pi)) }

/-- Embeds the `fwhm` property getter:
`fwhm = self.stddev * _gauss_StDev_to_FWHM`. -/
noncomputable def GaussianModel1D.fwhm (m : GaussianModel1D) : ℝ :=
  m.stddev * gauss_StDev_to_FWHM

/-- Embeds the `fwhm` property setter:
`self.stddev = fwhm / _gauss_StDev_to_FWHM`. -/
noncomputable def GaussianModel1D.fwhm_set (m : GaussianModel1D) (fwhm : ℝ) :
    GaussianModel1D :=
  { m with stddev := fwhm / gauss_StDev_to_FWHM }

/-- The two `raise ValueError` sites of `GaussianModel1D.__init__`.  Each
constructor carries exactly the two values interpolated into the Python
error message (`"... got stdev={} fwhm={}"`, resp.
`"... got amplitude={} flux={}"`). -/
inductive InitError where
  | ambiguousWidth (stddev fwhm : Option ℝ)
  | ambiguousHeight (amplitude flux : Option ℝ)

/-- Embeds `GaussianModel1D.__init__`.  The two guards mirror
`if not ((stddev is not None) ^ (fwhm is not None)): raise ...` and
`if not ((flux is not None) ^ (amplitude is not None)): raise ...`; then the
astropy base is initialised with the placeholder state
`(amplitude = 1, mean, stddev = 1)`, the width is resolved
(`self.stddev = stddev` or `self.fwhm = fwhm`, the latter dispatching to the
`fwhm` setter), and finally the height is resolved (`self.amplitude =
amplitude` or `self.flux = flux`, the latter dispatching to the `flux`
setter).  The `none, none` branches of the two matches are unreachable: the
guards have already rejected those inputs. -/
noncomputable def GaussianModel1D.init (amplitude : Option ℝ) (mean : ℝ)
    (stddev fwhm flux : Option ℝ) : Except InitError GaussianModel1D :=
  if !(stddev.isSome ^^ fwhm.isSome) then
    .error (.ambiguousWidth stddev fwhm)
  else if !(flux.isSome ^^ amplitude.isSome) then
    .error (.ambiguousHeight amplitude flux)
  else
    let base : GaussianModel1D := { amplitude := 1, mean := mean, stddev := 1 }
    let m1 : GaussianModel1D :=
      match stddev, fwhm with
      | some s, _ => { base with stddev := s }
      | none, some w => base.fwhm_set w
      | none, none => base
    let m2 : GaussianModel1D :=
      match amplitude, flux with
      | some a, _ => { m1 with amplitude := a }
      | none, some f => m1.flux_set f
      | none, none => m1
    .ok m2

/-- Embeds `np.roll(xs, -1)`: every element moves one slot towards the front
and the first element wraps around to the back. -/
def npRollNeg1 {α : Type} : List α → List α
  | [] => []
  | x :: xs => xs ++ [x]

/-- Embeds `GaussianModel1D.integrate(self, limits)` in state-passing style:
`cdf = scipy.stats.norm.cdf(limits, self.mean, self.stddev)`,
`area = (np.roll(cdf, -1) - cdf)[:-1]`, `binned_flux = area * self.flux`.
The method only reads `self`, so the returned state is the input state. -/
noncomputable def GaussianModel1D.integrate (cdf : ℝ → ℝ → ℝ → ℝ)
    (m : GaussianModel1D) (limits : List ℝ) : GaussianModel1D × List ℝ :=
  let c : List ℝ := limits.map (fun x => cdf x m.mean m.stddev)
  let area : List ℝ := (List.zipWith (fun a b => a - b) (npRollNeg1 c) c).dropLast
  (m, area.map (fun a => a * m.flux))

/-! Helper lemmas shared by the claim theorems. -/

lemma sqrt_two_pi_pos : 0 < Real.sqrt (2 * Real.pi) :=
  Real.sqrt_pos.mpr (by positivity)

lemma gauss_StDev_to_FWHM_pos : 0 < gauss_StDev_to_FWHM := by
  have h : 0 < Real.sqrt (2 * Real.log 2) :=
    Real.sqrt_pos.mpr (by positivity)
  unfold gauss_StDev_to_FWHM
  linarith

lemma gauss_StDev_to_FWHM_ne_zero : gauss_StDev_to_FWHM ≠ 0 :=
  ne_of_gt gauss_StDev_to_FWHM_pos

lemma gauss_StDev_to_FWHM_bounds :
    (2.3548200444 : ℝ) < gauss_StDev_to_FWHM ∧
      gauss_StDev_to_FWHM < 2.3548200458 := by
  have h1 : (0.6931471803 : ℝ) < Real.log 2 := Real.log_two_gt_d9
  have h2 : Real.log 2 < 0.6931471808 := Real.log_two_lt_d9
  have hs1 : (1.1774100222 : ℝ) < Real.sqrt (2 * Real.log 2) :=
    (Real.lt_sqrt (by norm_num)).mpr (by nlinarith [h1])
  have hs2 : Real.sqrt (2 * Real.log 2) < 1.1774100229 :=
    (Real.sqrt_lt' (by norm_num)).mpr (by nlinarith [h2])
  unfold gauss_StDev_to_FWHM
  constructor <;> nlinarith [hs1, hs2]

lemma npRollNeg1_length {α : Type} (l : List α) :
    (npRollNeg1 l).length = l.length := by
  cases l with
  | nil => rfl
  | cons x xs => simp [npRollNeg1]

lemma get?_tail_eq (l : List ℝ) (n : ℕ) : l.tail.get? n = l.get? (n + 1) := by
  cases l with
  | nil => rfl
  | cons x xs => rfl

lemma zipWith_append_singleton_dropLast (f : ℝ → ℝ → ℝ) :
    ∀ (xs : List ℝ) (x y : ℝ),
      (List.zipWith f (xs ++ [x]) (y :: xs)).dropLast =
        List.zipWith f xs (y :: xs) := by
  intro xs
  induction xs with
  | nil => intro x y; rfl
  | cons a as ih =>
    intro x y
    have hne : List.zipWith f (as ++ [x]) (a :: as) ≠ [] := by
      have hlen : (List.zipWith f (as ++ [x]) (a :: as)).length = as.length + 1 := by
        simp [List.length_zipWith]
      intro hcontra
      rw [hcontra] at hlen
      simp at hlen
    rw [List.cons_append, List.zipWith_cons_cons,
      List.dropLast_cons_of_ne_nil hne, ih x a, List.zipWith_cons_cons]

lemma zipWith_npRollNeg1_dropLast (f : ℝ → ℝ → ℝ) (l : List ℝ) :
    (List.zipWith f (npRollNeg1 l) l).dropLast = List.zipWith f l.tail l := by
  cases l with
  | nil => rfl
  | cons x xs => exact zipWith_append_singleton_dropLast f xs x x

lemma integrate_snd_eq (cdf : ℝ → ℝ → ℝ → ℝ) (m : GaussianModel1D)
    (limits : List ℝ) :
    (m.integrate cdf limits).2 =
      List.zipWith
        (fun b a => (cdf b m.mean m.stddev - cdf a m.mean m.stddev) * m.flux)
        limits.tail limits := by
  simp only [GaussianModel1D.integrate]
  rw [zipWith_npRollNeg1_dropLast, ← List.map_tail, List.zipWith_map,
    List.map_zipWith]

lemma integrate_snd_length (cdf : ℝ → ℝ → ℝ → ℝ) (m : GaussianModel1D)
    (limits : List ℝ) :
    ((m.integrate cdf limits).2).length = limits.length - 1 := by
  rw [integrate_snd_eq]
  simp only [List.length_zipWith, List.length_tail]
  exact min_eq_left (Nat.sub_le _ _)

/-! Claim theorems. -/

/-- C1: construction raises a validation error if and only if the width pair
is ambiguous or the height pair is ambiguous — it fails when `stddev` and
`fwhm` are both supplied or both omitted, and symmetrically when `amplitude`
and `flux` are both supplied or both omitted; each failure carries both
offending input values (the values interpolated into the Python error
message). -/
theorem GaussianModel1D.init_validation (a : Option ℝ) (mean : ℝ)
    (sd fw fl : Option ℝ) :
    ((sd.isSome ^^ fw.isSome) = false →
      GaussianModel1D.init a mean sd fw fl =
        .error (.ambiguousWidth sd fw)) ∧
    ((sd.isSome ^^ fw.isSome) = true → (fl.isSome ^^ a.isSome) = false →
      GaussianModel1D.init a mean sd fw fl =
        .error (.ambiguousHeight a fl)) ∧
    ((sd.isSome ^^ fw.isSome) = true → (fl.isSome ^^ a.isSome) = true →
      ∃ m : GaussianModel1D, GaussianModel1D.init a mean sd fw fl = .ok m) := by
  refine ⟨?_, ?_, ?_⟩
  · intro h
    simp [GaussianModel1D.init, h]
  · intro h1 h2
    simp [GaussianModel1D.init, h1, h2]
  · intro h1 h2
    simp only [GaussianModel1D.init, h1, h2, Bool.not_true, Bool.false_eq_true,
      if_false]
    exact ⟨_, rfl⟩

/-- C1 witness: with all four parameters omitted, construction fails with the
width error carrying both (absent) values. -/
theorem init_validation_witness :
    GaussianModel1D.init none 0 none none none =
      .error (.ambiguousWidth none none) :=
  (GaussianModel1D.init_validation none 0 none none none).1 rfl

/-- C2: for every valid construction input (exactly one of stddev/fwhm and
exactly one of amplitude/flux), construction succeeds, width is resolved
before height: the stored `stddev` is the given `stddev`, or
`fwhm / (2*sqrt(2*ln 2))` when `fwhm` was given; the stored `amplitude` is
the given `amplitude`, or `flux / (stddev * sqrt(2*pi))` computed with the
already-resolved `stddev` when `flux` was given; the stored `mean` is the
given mean. -/
theorem GaussianModel1D.init_resolution (a : Option ℝ) (mean : ℝ)
    (sd fw fl : Option ℝ)
    (hw : (sd.isSome ^^ fw.isSome) = true)
    (hh : (fl.isSome ^^ a.isSome) = true) :
    ∃ m : GaussianModel1D, GaussianModel1D.init a mean sd fw fl = .ok m ∧
      m.mean = mean ∧
      (∀ s, sd = some s → m.stddev = s) ∧
      (∀ w, fw = some w → m.stddev = w / gauss_StDev_to_FWHM) ∧
      (∀ x, a = some x → m.amplitude = x) ∧
      (∀ f, fl = some f → m.amplitude =
        f / (m.stddev * Real.sqrt (2 * Real.pi))) := by
  cases sd with
  | some s =>
    cases fw with
    | some w => simp at hw
    | none =>
      cases a with
      | some x =>
        cases fl with
        | some f => simp at hh
        | none =>
          refine ⟨⟨x, mean, s⟩, rfl, rfl, ?_, ?_, ?_, ?_⟩ <;>
            (intro v hv; cases hv <;> rfl)
      | none =>
        cases fl with
        | none => simp at hh
        | some f =>
          refine ⟨_, rfl, rfl, ?_, ?_, ?_, ?_⟩ <;>
            (intro v hv; cases hv <;> rfl)
  | none =>
    cases fw with
    | none => simp at hw
    | some w =>
      cases a with
      | some x =>
        cases fl with
        | some f => simp at hh
        | none =>
          refine ⟨_, rfl, rfl, ?_, ?_, ?_, ?_⟩ <;>
            (intro v hv; cases hv <;> rfl)
      | none =>
        cases fl with
        | none => simp at hh
        | some f =>
          refine ⟨_, rfl, rfl, ?_, ?_, ?_, ?_⟩ <;>
            (intro v hv; cases hv <;> rfl)

/-- C2 witness: constructing with amplitude 2, mean 5, fwhm 4 succeeds, the
stored stddev is 4 divided by the conversion constant, the stored amplitude
is 2 and the stored mean is 5. -/
theorem init_resolution_witness :
    ∃ m : GaussianModel1D,
      GaussianModel1D.init (some 2) 5 none (some 4) none = .ok m ∧
      m.mean = 5 ∧
      (∀ s, (none : Option ℝ) = some s → m.stddev = s) ∧
      (∀ w, (some (4:ℝ)) = some w → m.stddev = w / gauss_StDev_to_FWHM) ∧
      (∀ x, (some (2:ℝ)) = some x → m.amplitude = x) ∧
      (∀ f, (none : Option ℝ) = some f → m.amplitude =
        f / (m.stddev * Real.sqrt (2 * Real.pi))) :=
  GaussianModel1D.init_resolution (some 2) 5 none (some 4) none rfl rfl

/-- C10: the width validation is checked before the height one — an input
violating both exclusivity conditions fails with the width (stddev/fwhm)
error — and whenever either validation fails no model state is produced. -/
theorem GaussianModel1D.init_width_checked_first (a : Option ℝ) (mean : ℝ)
    (sd fw fl : Option ℝ) :
    ((sd.isSome ^^ fw.isSome) = false →
      GaussianModel1D.init a mean sd fw fl =
        .error (.ambiguousWidth sd fw)) ∧
    (((sd.isSome ^^ fw.isSome) = false ∨ (fl.isSome ^^ a.isSome) = false) →
      ∀ m : GaussianModel1D, GaussianModel1D.init a mean sd fw fl ≠ .ok m) := by
  constructor
  · intro h
    simp [GaussianModel1D.init, h]
  · intro h m
    rcases h with h | h
    · simp [GaussianModel1D.init, h]
    · cases hw : (sd.isSome ^^ fw.isSome) with
      | false => simp [GaussianModel1D.init, hw]
      | true => simp [GaussianModel1D.init, hw, h]

/-- C10 witness: with all four parameters supplied (both pairs ambiguous),
the error raised is the width one. -/
theorem init_width_checked_first_witness :
    GaussianModel1D.init (some 1) 0 (some 1) (some 1) (some 1) =
      .error (.ambiguousWidth (some 1) (some 1)) :=
  (GaussianModel1D.init_width_checked_first (some 1) 0 (some 1) (some 1)
    (some 1)).1 rfl

/-- C3: for every model state and every limits sequence, the i-th output of
`integrate` (0 ≤ i < n−1, in input order) is
`(CDF(x_{i+1}) − CDF(x_i)) * (amplitude * stddev * sqrt(2*pi))` — the bin
probability mass times the model's total flux — and the output has exactly
n−1 entries, so the wrap-around difference between the last and first limit
never appears in it. -/
theorem GaussianModel1D.integrate_bins (cdf : ℝ → ℝ → ℝ → ℝ)
    (m : GaussianModel1D) (limits : List ℝ) (i : ℕ) (x y : ℝ)
    (hx : limits.get? i = some x) (hy : limits.get? (i + 1) = some y) :
    ((m.integrate cdf limits).2).get? i =
      some ((cdf y m.mean m.stddev - cdf x m.mean m.stddev)
        * (m.amplitude * (m.stddev * Real.sqrt (2 * Real.pi)))) ∧
    ((m.integrate cdf limits).2).length = limits.length - 1 := by
  refine ⟨?_, integrate_snd_length cdf m limits⟩
  have ht : limits.tail.get? i = some y := by
    rw [get?_tail_eq]
    exact hy
  rw [integrate_snd_eq, List.get?_zipWith', ht, hx]
  rfl

/-- C3 witness: for the standard model (amplitude 1, mean 0, stddev 1) with
limits `[0, 1, 2]` and the identity CDF stub, bin 0 holds
`(CDF(1) − CDF(0)) * flux` and the output has 2 = 3−1 entries. -/
theorem integrate_bins_witness :
    ((GaussianModel1D.integrate (fun x _ _ => x) ⟨1, 0, 1⟩ [0, 1, 2]).2).get? 0 =
      some (((1:ℝ) - 0) * (1 * (1 * Real.sqrt (2 * Real.pi)))) ∧
    ((GaussianModel1D.integrate (fun x _ _ => x) ⟨1, 0, 1⟩ [0, 1, 2]).2).length =
      3 - 1 :=
  GaussianModel1D.integrate_bins (fun x _ _ => x) ⟨1, 0, 1⟩ [0, 1, 2] 0 0 1
    rfl rfl

/-- C4: `integrate` on an n-element limits sequence returns exactly n−1
elements (so never an n-th, wrap-around element), and on a 0- or 1-element
sequence returns the empty result. -/
theorem GaussianModel1D.integrate_count (cdf : ℝ → ℝ → ℝ → ℝ)
    (m : GaussianModel1D) (limits : List ℝ) :
    ((m.integrate cdf limits).2).length = limits.length - 1 ∧
    (limits.length ≤ 1 → (m.integrate cdf limits).2 = []) := by
  refine ⟨integrate_snd_length cdf m limits, ?_⟩
  intro h
  have hl := integrate_snd_length cdf m limits
  have hz : ((m.integrate cdf limits).2).length = 0 := by omega
  exact List.eq_nil_of_length_eq_zero hz

/-- C4 witness: `integrate` on the 1-element limits sequence `[5]` returns
the empty result. -/
theorem integrate_count_witness :
    (GaussianModel1D.integrate (fun x _ _ => x) ⟨1, 0, 1⟩ [(5:ℝ)]).2 = [] :=
  (GaussianModel1D.integrate_count (fun x _ _ => x) ⟨1, 0, 1⟩ [(5:ℝ)]).2
    (by norm_num)

/-- C5: reading the `flux` property returns
`amplitude * stddev * sqrt(2*pi)` (a total function of the stored state, so
it never raises), yielding 0 when `stddev` is 0 and a sign-flipped flux when
`stddev` is negated. -/
theorem GaussianModel1D.flux_read_spec (m : GaussianModel1D) :
    m.flux = m.amplitude * (m.stddev * Real.sqrt (2 * Real.pi)) ∧
    (m.stddev = 0 → m.flux = 0) ∧
    (∀ s : ℝ, ({ m with stddev := -s } : GaussianModel1D).flux =
      -({ m with stddev := s } : GaussianModel1D).flux) := by
  refine ⟨rfl, ?_, ?_⟩
  · intro h
    simp [GaussianModel1D.flux, h]
  · intro s
    simp only [GaussianModel1D.flux]
    ring

/-- C5 witness: with amplitude 1 and stddev 0 the flux reads 0. -/
theorem flux_read_spec_witness :
    ({ amplitude := 1, mean := 0, stddev := 0 } : GaussianModel1D).flux = 0 :=
  (GaussianModel1D.flux_read_spec ⟨1, 0, 0⟩).2.1 rfl

/-- C6: for every positive stddev, reading `fwhm` yields
`stddev * (2*sqrt(2*ln 2))`, that constant is within 10⁻⁹ of
2.3548200450309493, and writing the read value back restores the original
state exactly (the getter and setter are mutually inverse via the fixed
constant). -/
theorem GaussianModel1D.fwhm_round_trip (m : GaussianModel1D)
    (h : 0 < m.stddev) :
    m.fwhm = m.stddev * (2 * Real.sqrt (2 * Real.log 2)) ∧
    |2 * Real.sqrt (2 * Real.log 2) - 2.3548200450309493| < 1 / 10 ^ 9 ∧
    m.fwhm_set m.fwhm = m := by
  refine ⟨rfl, ?_, ?_⟩
  · have hb := gauss_StDev_to_FWHM_bounds
    unfold gauss_StDev_to_FWHM at hb
    rw [abs_lt]
    constructor <;> nlinarith [hb.1, hb.2]
  · have hK := gauss_StDev_to_FWHM_ne_zero
    obtain ⟨a, b, c⟩ := m
    show (⟨a, b, c * gauss_StDev_to_FWHM / gauss_StDev_to_FWHM⟩ :
      GaussianModel1D) = ⟨a, b, c⟩
    rw [mul_div_cancel_right₀ c hK]

/-- C6 witness: the round trip at the state (amplitude 1, mean 0, stddev 1),
whose stddev is positive. -/
theorem fwhm_round_trip_witness :
    (0:ℝ) < 1 ∧
      (({ amplitude := 1, mean := 0, stddev := 1 } : GaussianModel1D).fwhm_set
          ({ amplitude := 1, mean := 0, stddev := 1 } : GaussianModel1D).fwhm =
        { amplitude := 1, mean := 0, stddev := 1 }) :=
  ⟨by norm_num, (GaussianModel1D.fwhm_round_trip ⟨1, 0, 1⟩ one_pos).2.2⟩

/-- C7: for every amplitude and every positive stddev, reading `flux` and
writing that value back (stddev unchanged in between) restores the original
state — in particular the original amplitude — exactly. -/
theorem GaussianModel1D.flux_round_trip (m : GaussianModel1D)
    (h : 0 < m.stddev) :
    m.flux_set m.flux = m := by
  have hs : m.stddev * Real.sqrt (2 * Real.pi) ≠ 0 :=
    ne_of_gt (mul_pos h sqrt_two_pi_pos)
  obtain ⟨a, b, c⟩ := m
  show (⟨a * (c * Real.sqrt (2 * Real.pi)) / (c * Real.sqrt (2 * Real.pi)),
    b, c⟩ : GaussianModel1D) = ⟨a, b, c⟩
  rw [mul_div_cancel_right₀ a hs]

/-- C7 witness: the flux round trip at the state (amplitude 2, mean 3,
stddev 1). -/
theorem flux_round_trip_witness :
    ({ amplitude := 2, mean := 3, stddev := 1 } : GaussianModel1D).flux_set
        ({ amplitude := 2, mean := 3, stddev := 1 } : GaussianModel1D).flux =
      { amplitude := 2, mean := 3, stddev := 1 } :=
  GaussianModel1D.flux_round_trip ⟨2, 3, 1⟩ one_pos

/-- C8: writing the `flux` property sets
`amplitude = flux / (stddev * sqrt(2*pi))` and changes nothing else; when
`stddev` is 0 at the time of the call the division is undefined — no stored
amplitude can realize a nonzero requested flux, so the write has no valid
result. -/
theorem GaussianModel1D.flux_write_spec (m : GaussianModel1D) (f : ℝ) :
    (m.flux_set f).amplitude = f / (m.stddev * Real.sqrt (2 * Real.pi)) ∧
    (m.flux_set f).mean = m.mean ∧
    (m.flux_set f).stddev = m.stddev ∧
    (m.stddev = 0 → f ≠ 0 → ∀ a : ℝ,
      ({ m with amplitude := a } : GaussianModel1D).flux ≠ f) := by
  refine ⟨rfl, rfl, rfl, ?_⟩
  intro h0 hf a
  have hz : ({ m with amplitude := a } : GaussianModel1D).flux = 0 := by
    simp [GaussianModel1D.flux, h0]
  rw [hz]
  exact Ne.symm hf

/-- C8 witness: with stddev 0, no amplitude (here 5) realizes the requested
flux 1. -/
theorem flux_write_spec_witness :
    ({ amplitude := 5, mean := 0, stddev := 0 } : GaussianModel1D).flux ≠ 1 :=
  (GaussianModel1D.flux_write_spec ⟨1, 0, 0⟩ 1).2.2.2 rfl (by norm_num) 5

/-- C9: `integrate` leaves the model's amplitude, mean and stddev unchanged
— in the state-passing embedding the returned state is the input state, a
pure read/compute operation. -/
theorem GaussianModel1D.integrate_no_mutation (cdf : ℝ → ℝ → ℝ → ℝ)
    (m : GaussianModel1D) (limits : List ℝ) :
    ((m.integrate cdf limits).1).amplitude = m.amplitude ∧
    ((m.integrate cdf limits).1).mean = m.mean ∧
    ((m.integrate cdf limits).1).stddev = m.stddev ∧
    (m.integrate cdf limits).1 = m :=
  ⟨rfl, rfl, rfl, rfl⟩
